import Mathlib

/-!
Verification of the solar-system scale-configuration generator
(`generate_solar_system_config.py`).

The script is pure closed-form arithmetic over a hard-coded catalog of the
eight planets, plus formatting and JSON/CSV serialization.  All numeric
literals in the source are exact decimal fractions, so the arithmetic is
embedded over `ℚ` (the exact values the decimal literals denote); the
spec itself treats the conversions as exact.  Console/file output is
embedded as the list of produced lines (for the CSV report) and as a JSON
syntax tree (for the JSON export).
-/

namespace SolarConfig

/-- One entry of the hard-coded `PLANETS` catalog: the twelve fields of a
planet dictionary in the source. -/
structure Planet where
  name : String
  semi_major_axis_au : ℚ
  eccentricity : ℚ
  orbital_period_days : ℚ
  inclination_deg : ℚ
  longitude_ascending_node_deg : ℚ
  argument_periapsis_deg : ℚ
  mean_anomaly_epoch_deg : ℚ
  diameter_km : ℚ
  mass_earth_masses : ℚ
  rotation_period_days : ℚ
  has_moons : Bool
deriving DecidableEq, Repr

/-- The hard-coded catalog `PLANETS` (Mercury through Neptune), with the
exact decimal values of the source literals. -/
def PLANETS : List Planet :=
  [ { name := "Mercury",
      semi_major_axis_au := 0.38709893,
      eccentricity := 0.20563069,
      orbital_period_days := 87.969,
      inclination_deg := 7.00487,
      longitude_ascending_node_deg := 48.33167,
      argument_periapsis_deg := 77.45645,
      mean_anomaly_epoch_deg := 252.25084,
      diameter_km := 4879.4,
      mass_earth_masses := 0.0553,
      rotation_period_days := 58.646,
      has_moons := false },
    { name := "Venus",
      semi_major_axis_au := 0.72333199,
      eccentricity := 0.00677323,
      orbital_period_days := 224.701,
      inclination_deg := 3.39471,
      longitude_ascending_node_deg := 76.68069,
      argument_periapsis_deg := 131.53298,
      mean_anomaly_epoch_deg := 181.97973,
      diameter_km := 12103.6,
      mass_earth_masses := 0.815,
      rotation_period_days := 243.018,
      has_moons := false },
    { name := "Earth",
      semi_major_axis_au := 1.00000011,
      eccentricity := 0.01671022,
      orbital_period_days := 365.256,
      inclination_deg := 0.00005,
      longitude_ascending_node_deg := -11.26064,
      argument_periapsis_deg := 102.94719,
      mean_anomaly_epoch_deg := 100.46435,
      diameter_km := 12742.0,
      mass_earth_masses := 1.0,
      rotation_period_days := 1.0,
      has_moons := true },
    { name := "Mars",
      semi_major_axis_au := 1.52366231,
      eccentricity := 0.09341233,
      orbital_period_days := 686.980,
      inclination_deg := 1.85061,
      longitude_ascending_node_deg := 49.57854,
      argument_periapsis_deg := 336.04084,
      mean_anomaly_epoch_deg := 355.45332,
      diameter_km := 6779.0,
      mass_earth_masses := 0.107,
      rotation_period_days := 1.026,
      has_moons := true },
    { name := "Jupiter",
      semi_major_axis_au := 5.20336301,
      eccentricity := 0.04839266,
      orbital_period_days := 4332.589,
      inclination_deg := 1.30530,
      longitude_ascending_node_deg := 100.55615,
      argument_periapsis_deg := 14.75385,
      mean_anomaly_epoch_deg := 34.40438,
      diameter_km := 139820.0,
      mass_earth_masses := 317.8,
      rotation_period_days := 0.414,
      has_moons := true },
    { name := "Saturn",
      semi_major_axis_au := 9.53707032,
      eccentricity := 0.05415060,
      orbital_period_days := 10759.22,
      inclination_deg := 2.48446,
      longitude_ascending_node_deg := 113.71504,
      argument_periapsis_deg := 92.43194,
      mean_anomaly_epoch_deg := 49.94432,
      diameter_km := 116460.0,
      mass_earth_masses := 95.2,
      rotation_period_days := 0.444,
      has_moons := true },
    { name := "Uranus",
      semi_major_axis_au := 19.19126393,
      eccentricity := 0.04716771,
      orbital_period_days := 30688.5,
      inclination_deg := 0.76986,
      longitude_ascending_node_deg := 74.22988,
      argument_periapsis_deg := 170.96424,
      mean_anomaly_epoch_deg := 313.23218,
      diameter_km := 50724.0,
      mass_earth_masses := 14.5,
      rotation_period_days := 0.718,
      has_moons := true },
    { name := "Neptune",
      semi_major_axis_au := 30.06896348,
      eccentricity := 0.00858587,
      orbital_period_days := 60182.0,
      inclination_deg := 1.76917,
      longitude_ascending_node_deg := 131.72169,
      argument_periapsis_deg := 44.97135,
      mean_anomaly_epoch_deg := 304.88003,
      diameter_km := 49244.0,
      mass_earth_masses := 17.1,
      rotation_period_days := 0.671,
      has_moons := true } ]

/-- Constant `AU_TO_KM = 149597870.7` from the source. -/
def AU_TO_KM : ℚ := 149597870.7

/-- Constant `CM_PER_KM = 100000.0` from the source. -/
def CM_PER_KM : ℚ := 100000.0

/-- The per-planet record built in the loop body of
`calculate_scaled_values`: the twelve entries of the `result` dictionary. -/
structure ScaledResult where
  name : String
  distance_au : ℚ
  distance_km : ℚ
  distance_uu : ℚ
  distance_game_km : ℚ
  radius_real_km : ℚ
  radius_uu : ℚ
  radius_game_km : ℚ
  orbit_real_days : ℚ
  orbit_scaled_seconds : ℚ
  orbit_scaled_minutes : ℚ
  orbit_scaled_hours : ℚ
deriving DecidableEq, Repr

/-- The body of the `for planet in PLANETS` loop of
`calculate_scaled_values`: the arithmetic producing one `result` record. -/
def scaledResult (distance_scale size_scale time_multiplier : ℚ)
    (planet : Planet) : ScaledResult :=
  let distance_km := planet.semi_major_axis_au * AU_TO_KM
  let distance_uu := distance_km * CM_PER_KM * distance_scale
  let radius_km := planet.diameter_km / 2.0
  let radius_uu := radius_km * CM_PER_KM * size_scale
  let real_orbit_days := planet.orbital_period_days
  let real_orbit_seconds := real_orbit_days * 86400.0
  let scaled_orbit_seconds := real_orbit_seconds / time_multiplier
  let scaled_orbit_minutes := scaled_orbit_seconds / 60.0
  let scaled_orbit_hours := scaled_orbit_minutes / 60.0
  { name := planet.name,
    distance_au := planet.semi_major_axis_au,
    distance_km := distance_km,
    distance_uu := distance_uu,
    distance_game_km := distance_uu / CM_PER_KM,
    radius_real_km := radius_km,
    radius_uu := radius_uu,
    radius_game_km := radius_uu / CM_PER_KM,
    orbit_real_days := real_orbit_days,
    orbit_scaled_seconds := scaled_orbit_seconds,
    orbit_scaled_minutes := scaled_orbit_minutes,
    orbit_scaled_hours := scaled_orbit_hours }

/-- `calculate_scaled_values`: starts from the empty `results` list and
appends one record per catalog planet, exactly as the source loop does. -/
def calculate_scaled_values (distance_scale size_scale time_multiplier : ℚ) :
    List ScaledResult :=
  PLANETS.foldl
    (fun results planet =>
      results ++ [scaledResult distance_scale size_scale time_multiplier planet])
    []

/-- The three display formats the `Game Orbit` print statement can use. -/
inductive GameOrbitFormat where
  | daysHours
  | hoursMinutes
  | minutesSeconds
deriving DecidableEq, Repr

/-- The branch taken by the `Game Orbit` print in `calculate_scaled_values`:
`if scaled_orbit_hours > 24 … elif scaled_orbit_hours > 1 … else …`. -/
def gameOrbitFormat (scaled_orbit_hours : ℚ) : GameOrbitFormat :=
  if scaled_orbit_hours > 24 then GameOrbitFormat.daysHours
  else if scaled_orbit_hours > 1 then GameOrbitFormat.hoursMinutes
  else GameOrbitFormat.minutesSeconds

/-- One line printed per planet by `calculate_camera_distances`. -/
structure CameraRec where
  name : String
  radius_uu : ℚ
  min_distance : ℚ
  max_distance : ℚ
deriving DecidableEq, Repr

/-- The body of the `for planet in PLANETS` loop of
`calculate_camera_distances`: min/max viewing distance are 3x and 5x the
engine radius. -/
def cameraRec (size_scale : ℚ) (planet : Planet) : CameraRec :=
  let radius_km := planet.diameter_km / 2.0
  let radius_uu := radius_km * CM_PER_KM * size_scale
  { name := planet.name,
    radius_uu := radius_uu,
    min_distance := radius_uu * 3,
    max_distance := radius_uu * 5 }

/-- `calculate_camera_distances`: the source hard-codes `size_scale = 50.0`
(its local `distance_scale = 0.00001` is never used) and emits one record
per catalog planet. -/
def calculate_camera_distances : List CameraRec :=
  let size_scale : ℚ := 50.0
  PLANETS.map (cameraRec size_scale)

/-- Base-10 digit list of a natural number, most significant digit first
(the digits `str(n)` shows). -/
def natDigits (n : ℕ) : List Char :=
  if _h : n < 10 then [Nat.digitChar n]
  else natDigits (n / 10) ++ [Nat.digitChar (n % 10)]
decreasing_by omega

/-- Decimal string of a natural number. -/
def natToStr (n : ℕ) : String :=
  String.mk (natDigits n)

/-- Embedding of the Python fixed-point format `f"{q:.pf}"` for the exact
rational value `q`: round `q` to `p` decimal places and print with exactly
`p` digits after the point (zero-padded).  Python rounds the binary double
half-to-even; on the exact decimal catalog values at the precisions the
script uses no rounding tie arises, so rounding to the nearest integer
numerator agrees. -/
def ratToFixed (q : ℚ) (p : ℕ) : String :=
  let scaled : ℤ := round (q * (10 : ℚ) ^ p)
  let sign := if scaled < 0 then "-" else ""
  let n := scaled.natAbs
  let intStr := natToStr (n / 10 ^ p)
  let fracStr := natToStr (n % 10 ^ p)
  let fracPadded := String.mk (List.replicate (p - fracStr.length) '0') ++ fracStr
  sign ++ intStr ++ "." ++ fracPadded

/-- The fixed header line printed by `generate_blueprint_csv`. -/
def csvHeader : String :=
  "PlanetName,SemiMajorAxisUU,Eccentricity,OrbitalPeriodDays,InclinationDeg,LongAscNodeDeg,ArgPeriapsisDeg,MeanAnomalyDeg,DiameterKm,MassEarthMasses,RotationPeriodDays,HasMoons"

/-- The twelve comma-separated fields of one CSV data row of
`generate_blueprint_csv`, with the per-field format precisions of the
source f-string. -/
def csvRowFields (distance_scale : ℚ) (planet : Planet) : List String :=
  let distance_km := planet.semi_major_axis_au * AU_TO_KM
  let distance_uu := distance_km * CM_PER_KM * distance_scale
  [ planet.name,
    ratToFixed distance_uu 2,
    ratToFixed planet.eccentricity 8,
    ratToFixed planet.orbital_period_days 3,
    ratToFixed planet.inclination_deg 5,
    ratToFixed planet.longitude_ascending_node_deg 5,
    ratToFixed planet.argument_periapsis_deg 5,
    ratToFixed planet.mean_anomaly_epoch_deg 5,
    ratToFixed planet.diameter_km 1,
    ratToFixed planet.mass_earth_masses 3,
    ratToFixed planet.rotation_period_days 3,
    if planet.has_moons then "TRUE" else "FALSE" ]

/-- One printed CSV data row. -/
def csvRow (distance_scale : ℚ) (planet : Planet) : String :=
  String.intercalate "," (csvRowFields distance_scale planet)

/-- `generate_blueprint_csv` as the list of lines it prints: the fixed
header followed by one row per catalog planet.  (`size_scale` is a
parameter of the source function but is not used by the row format.) -/
def generate_blueprint_csv (distance_scale size_scale : ℚ) : List String :=
  csvHeader :: PLANETS.map (csvRow distance_scale)

/-- JSON values, as produced by the `json.dump` serialization of the
`config` dictionary (numbers are the exact rationals the decimal literals
denote; `json.dump`/`json.loads` round-trips them losslessly). -/
inductive Json where
  | num (q : ℚ)
  | str (s : String)
  | bool (b : Bool)
  | arr (items : List Json)
  | obj (fields : List (String × Json))
deriving Repr

/-- JSON object for one planet dictionary of the catalog (`json.dump`
keeps the twelve keys in insertion order). -/
def planetToJson (p : Planet) : Json :=
  Json.obj
    [ ("name", Json.str p.name),
      ("semi_major_axis_au", Json.num p.semi_major_axis_au),
      ("eccentricity", Json.num p.eccentricity),
      ("orbital_period_days", Json.num p.orbital_period_days),
      ("inclination_deg", Json.num p.inclination_deg),
      ("longitude_ascending_node_deg", Json.num p.longitude_ascending_node_deg),
      ("argument_periapsis_deg", Json.num p.argument_periapsis_deg),
      ("mean_anomaly_epoch_deg", Json.num p.mean_anomaly_epoch_deg),
      ("diameter_km", Json.num p.diameter_km),
      ("mass_earth_masses", Json.num p.mass_earth_masses),
      ("rotation_period_days", Json.num p.rotation_period_days),
      ("has_moons", Json.bool p.has_moons) ]

/-- The JSON document written by `export_json_config`: the `config`
dictionary with its hard-coded version, date, scale factors, constants
and the full `PLANETS` catalog. -/
def export_json_config : Json :=
  Json.obj
    [ ("version", Json.str "1.0"),
      ("date_created", Json.str "2026-01-08"),
      ("scale_factors", Json.obj
        [ ("distance_scale", Json.num 0.00001),
          ("planet_size_scale", Json.num 50.0),
          ("default_time_multiplier", Json.num 10000.0) ]),
      ("constants", Json.obj
        [ ("au_to_km", Json.num AU_TO_KM),
          ("cm_per_km", Json.num CM_PER_KM),
          ("sun_diameter_km", Json.num 1392700.0) ]),
      ("planets", Json.arr (PLANETS.map planetToJson)) ]

/-- Look up a key in a parsed JSON object (first occurrence, as Python's
`dict` has unique keys). -/
def Json.lookupKey : Json → String → Option Json
  | Json.obj fields, key => fields.lookup key
  | _, _ => none

/-- Read a string field back out of a parsed JSON value. -/
def getStr : Option Json → Option String
  | some (Json.str s) => some s
  | _ => none

/-- Read a numeric field back out of a parsed JSON value. -/
def getNum : Option Json → Option ℚ
  | some (Json.num q) => some q
  | _ => none

/-- Read a boolean field back out of a parsed JSON value. -/
def getBool : Option Json → Option Bool
  | some (Json.bool b) => some b
  | _ => none

/-- Re-parse one planet object from the JSON document back into a
`Planet` record, field by field. -/
def jsonToPlanet (j : Json) : Option Planet := do
  let name ← getStr (j.lookupKey "name")
  let semi_major_axis_au ← getNum (j.lookupKey "semi_major_axis_au")
  let eccentricity ← getNum (j.lookupKey "eccentricity")
  let orbital_period_days ← getNum (j.lookupKey "orbital_period_days")
  let inclination_deg ← getNum (j.lookupKey "inclination_deg")
  let longitude_ascending_node_deg ← getNum (j.lookupKey "longitude_ascending_node_deg")
  let argument_periapsis_deg ← getNum (j.lookupKey "argument_periapsis_deg")
  let mean_anomaly_epoch_deg ← getNum (j.lookupKey "mean_anomaly_epoch_deg")
  let diameter_km ← getNum (j.lookupKey "diameter_km")
  let mass_earth_masses ← getNum (j.lookupKey "mass_earth_masses")
  let rotation_period_days ← getNum (j.lookupKey "rotation_period_days")
  let has_moons ← getBool (j.lookupKey "has_moons")
  pure
    { name := name,
      semi_major_axis_au := semi_major_axis_au,
      eccentricity := eccentricity,
      orbital_period_days := orbital_period_days,
      inclination_deg := inclination_deg,
      longitude_ascending_node_deg := longitude_ascending_node_deg,
      argument_periapsis_deg := argument_periapsis_deg,
      mean_anomaly_epoch_deg := mean_anomaly_epoch_deg,
      diameter_km := diameter_km,
      mass_earth_masses := mass_earth_masses,
      rotation_period_days := rotation_period_days,
      has_moons := has_moons }

/-- Re-parse the `planets` array of the exported document. -/
def parsePlanets (doc : Json) : Option (List Planet) :=
  match doc.lookupKey "planets" with
  | some (Json.arr items) => items.mapM jsonToPlanet
  | _ => none

/-- Re-parse the three scale factors of the exported document. -/
def parseScaleFactors (doc : Json) : Option (ℚ × ℚ × ℚ) := do
  let sf ← doc.lookupKey "scale_factors"
  let d ← getNum (sf.lookupKey "distance_scale")
  let s ← getNum (sf.lookupKey "planet_size_scale")
  let t ← getNum (sf.lookupKey "default_time_multiplier")
  pure (d, s, t)

/-- Re-parse the three constants of the exported document. -/
def parseConstants (doc : Json) : Option (ℚ × ℚ × ℚ) := do
  let c ← doc.lookupKey "constants"
  let a ← getNum (c.lookupKey "au_to_km")
  let k ← getNum (c.lookupKey "cm_per_km")
  let s ← getNum (c.lookupKey "sun_diameter_km")
  pure (a, k, s)

/-- The property "this string is a fixed-point numeral with exactly `p`
digits after the decimal point". -/
def hasFixedDecimals (s : String) (p : ℕ) : Prop :=
  ∃ intPart fracPart : String,
    s = intPart ++ "." ++ fracPart ∧
    fracPart.length = p ∧
    ∀ c ∈ fracPart.data, c.isDigit

/-! ### Helper lemmas -/

/-- Appending singletons in a left fold is a map. -/
lemma foldl_append_singleton {α β : Type} (f : α → β) (l : List α)
    (acc : List β) :
    l.foldl (fun r a => r ++ [f a]) acc = acc ++ l.map f := by
  induction l generalizing acc with
  | nil => simp
  | cons a l ih => simp [ih]

/-- The `results` list built by the `calculate_scaled_values` loop is the
map of the per-planet record over the catalog. -/
lemma calculate_scaled_values_eq_map (d s t : ℚ) :
    calculate_scaled_values d s t = PLANETS.map (scaledResult d s t) := by
  simpa using foldl_append_singleton (scaledResult d s t) PLANETS []

/-- `Nat.digitChar` of a digit is a decimal digit character. -/
lemma digitChar_isDigit : ∀ m : ℕ, m < 10 → (Nat.digitChar m).isDigit := by
  decide

/-- A number below `10 ^ p` has at most `p` digits. -/
lemma natDigits_length_le :
    ∀ p n : ℕ, 0 < p → n < 10 ^ p → (natDigits n).length ≤ p := by
  intro p
  induction p with
  | zero => intro n h _; omega
  | succ p ih =>
    intro n _ hn
    by_cases h10 : n < 10
    · rw [natDigits, dif_pos h10]
      simp
    · rw [natDigits, dif_neg h10]
      have hp' : 0 < p := by
        rcases Nat.eq_zero_or_pos p with h0 | h0
        · subst h0; simp at hn; omega
        · exact h0
      have hdiv : n / 10 < 10 ^ p := by
        rw [pow_succ] at hn
        exact Nat.div_lt_of_lt_mul (by omega)
      have := ih (n / 10) hp' hdiv
      simp only [List.length_append, List.length_cons, List.length_nil]
      omega

/-- Every character emitted by `natDigits` is a decimal digit. -/
lemma natDigits_isDigit :
    ∀ n : ℕ, ∀ c ∈ natDigits n, c.isDigit := by
  intro n
  induction n using Nat.strong_induction_on with
  | _ n ih =>
    by_cases h10 : n < 10
    · rw [natDigits, dif_pos h10]
      intro c hc
      simp only [List.mem_singleton] at hc
      subst hc
      exact digitChar_isDigit n h10
    · rw [natDigits, dif_neg h10]
      intro c hc
      rcases List.mem_append.mp hc with hc | hc
      · exact ih (n / 10) (Nat.div_lt_self (by omega) (by omega)) c hc
      · simp only [List.mem_singleton] at hc
        subst hc
        exact digitChar_isDigit (n % 10) (Nat.mod_lt _ (by omega))

/-- The zero-padded fractional block of `ratToFixed` has exactly `p`
characters, all of them digits. -/
lemma fracPadded_spec (m p : ℕ) (hp : 0 < p) :
    (String.mk (List.replicate (p - (natToStr (m % 10 ^ p)).length) '0') ++
        natToStr (m % 10 ^ p)).length = p ∧
    ∀ c ∈ (String.mk (List.replicate (p - (natToStr (m % 10 ^ p)).length) '0') ++
        natToStr (m % 10 ^ p)).data, c.isDigit := by
  have hmod : m % 10 ^ p < 10 ^ p := Nat.mod_lt _ (by positivity)
  have h1 : (natDigits (m % 10 ^ p)).length ≤ p :=
    natDigits_length_le p _ hp hmod
  constructor
  · simp only [String.length_append, natToStr, String.length_mk,
      List.length_replicate]
    omega
  · intro c hc
    rw [String.data_append] at hc
    rcases List.mem_append.mp hc with hc | hc
    · rw [List.eq_of_mem_replicate hc]
      decide
    · exact natDigits_isDigit (m % 10 ^ p) c hc

/-- The string produced by `ratToFixed q p` (for `p > 0`, as in every CSV
field) has exactly `p` digits after its decimal point. -/
lemma ratToFixed_hasFixedDecimals (q : ℚ) (p : ℕ) (hp : 0 < p) :
    hasFixedDecimals (ratToFixed q p) p :=
  ⟨(if round (q * (10 : ℚ) ^ p) < 0 then "-" else "") ++
      natToStr ((round (q * (10 : ℚ) ^ p)).natAbs / 10 ^ p),
   String.mk (List.replicate
      (p - (natToStr ((round (q * (10 : ℚ) ^ p)).natAbs % 10 ^ p)).length) '0') ++
      natToStr ((round (q * (10 : ℚ) ^ p)).natAbs % 10 ^ p),
   rfl,
   (fracPadded_spec ((round (q * (10 : ℚ) ^ p)).natAbs) p hp).1,
   (fracPadded_spec ((round (q * (10 : ℚ) ^ p)).natAbs) p hp).2⟩

/-! ### Claims -/

/-- C1 (counterexample): at the default scale factors the Earth record
(index 2) has compressed orbital period `0.8766144` hours — not ≈ 3.1566
— which does not lie in `(1, 24]`, and the report prints the
minutes+seconds format, not hours+minutes. -/
theorem earth_default_game_orbit_not_hours_minutes :
    ((calculate_scaled_values 0.00001 50.0 10000.0).get? 2).map
        ScaledResult.name = some "Earth" ∧
    ((calculate_scaled_values 0.00001 50.0 10000.0).get? 2).map
        ScaledResult.orbit_scaled_hours = some 0.8766144 ∧
    ¬ ((1 : ℚ) < 0.8766144 ∧ (0.8766144 : ℚ) ≤ 24) ∧
    ((calculate_scaled_values 0.00001 50.0 10000.0).get? 2).map
        (fun r => gameOrbitFormat r.orbit_scaled_hours)
      ≠ some GameOrbitFormat.hoursMinutes := by
  rw [calculate_scaled_values_eq_map]
  refine ⟨by simp [PLANETS, scaledResult], ?_, by norm_num, ?_⟩
  · simp only [PLANETS, scaledResult, List.map_cons, List.get?_cons_succ,
      List.get?_cons_zero, Option.map_some]
    norm_num
  · simp only [PLANETS, scaledResult, List.map_cons, List.get?_cons_succ,
      List.get?_cons_zero, Option.map_some]
    norm_num [gameOrbitFormat]
    decide

/-- C1 (amended): for the Earth catalog entry at the default scale factors
(orbital period 365.256 days, time_multiplier 10000), the compressed
orbital period is exactly `0.8766144` hours, which is ≤ 1, so the report
printed by `calculate_scaled_values` displays Earth's game orbit in the
minutes+seconds format. -/
theorem earth_default_game_orbit_minutes_seconds :
    ((calculate_scaled_values 0.00001 50.0 10000.0).get? 2).map
        ScaledResult.name = some "Earth" ∧
    ((calculate_scaled_values 0.00001 50.0 10000.0).get? 2).map
        ScaledResult.orbit_scaled_hours = some 0.8766144 ∧
    (0.8766144 : ℚ) ≤ 1 ∧
    ((calculate_scaled_values 0.00001 50.0 10000.0).get? 2).map
        (fun r => gameOrbitFormat r.orbit_scaled_hours)
      = some GameOrbitFormat.minutesSeconds := by
  rw [calculate_scaled_values_eq_map]
  refine ⟨by simp [PLANETS, scaledResult], ?_, by norm_num, ?_⟩
  · simp only [PLANETS, scaledResult, List.map_cons, List.get?_cons_succ,
      List.get?_cons_zero, Option.map_some]
    norm_num
  · simp only [PLANETS, scaledResult, List.map_cons, List.get?_cons_succ,
      List.get?_cons_zero, Option.map_some]
    norm_num [gameOrbitFormat]

/-- C2: for every record produced by `calculate_scaled_values`, the
display unit for the compressed orbital period follows the three-way
threshold on compressed hours with exact breakpoints 24 and 1. -/
theorem game_orbit_format_thresholds (d s t : ℚ) (r : ScaledResult)
    (hr : r ∈ calculate_scaled_values d s t) :
    (24 < r.orbit_scaled_hours →
      gameOrbitFormat r.orbit_scaled_hours = GameOrbitFormat.daysHours) ∧
    (1 < r.orbit_scaled_hours ∧ r.orbit_scaled_hours ≤ 24 →
      gameOrbitFormat r.orbit_scaled_hours = GameOrbitFormat.hoursMinutes) ∧
    (r.orbit_scaled_hours ≤ 1 →
      gameOrbitFormat r.orbit_scaled_hours = GameOrbitFormat.minutesSeconds) := by
  unfold gameOrbitFormat
  refine ⟨fun h => ?_, fun h => ?_, fun h => ?_⟩
  · rw [if_pos h]
  · rw [if_neg (not_lt.mpr h.2), if_pos h.1]
  · rw [if_neg (not_lt.mpr (le_trans h (by norm_num))), if_neg (not_lt.mpr h)]

/-- C2 witness: the Earth record at the defaults falls in the `≤ 1`
branch and is displayed as minutes+seconds. -/
theorem game_orbit_format_thresholds_witness :
    gameOrbitFormat (scaledResult 0.00001 50.0 10000.0
        (PLANETS.get ⟨2, by simp [PLANETS]⟩)).orbit_scaled_hours
      = GameOrbitFormat.minutesSeconds := by
  have hmem : scaledResult 0.00001 50.0 10000.0
      (PLANETS.get ⟨2, by simp [PLANETS]⟩)
      ∈ calculate_scaled_values 0.00001 50.0 10000.0 := by
    rw [calculate_scaled_values_eq_map]
    exact List.mem_map_of_mem _ (List.get_mem _ _ _)
  exact (game_orbit_format_thresholds 0.00001 50.0 10000.0 _ hmem).2.2
    (by norm_num [scaledResult, PLANETS])

/-- C3: every record of `calculate_scaled_values` is the per-planet pure
record, and its engine distance equals
`semi_major_axis_au * 149597870.7 * 100000.0 * distance_scale`. -/
theorem engine_distance_formula (d s t : ℚ) :
    calculate_scaled_values d s t = PLANETS.map (scaledResult d s t) ∧
    ∀ p ∈ PLANETS, (scaledResult d s t p).distance_uu =
      p.semi_major_axis_au * 149597870.7 * 100000.0 * d :=
  ⟨calculate_scaled_values_eq_map d s t, fun p _ => rfl⟩

/-- C3 witness: the formula instantiated at Mercury with
`distance_scale = 1`. -/
theorem engine_distance_formula_witness :
    (scaledResult 1 1 1 (PLANETS.get ⟨0, by simp [PLANETS]⟩)).distance_uu =
      (PLANETS.get ⟨0, by simp [PLANETS]⟩).semi_major_axis_au *
        149597870.7 * 100000.0 * 1 :=
  (engine_distance_formula 1 1 1).2 _ (List.get_mem _ _ _)

/-- C4: every record of `calculate_scaled_values` is the per-planet pure
record, and its engine radius equals
`(diameter_km / 2) * 100000.0 * size_scale`. -/
theorem engine_radius_formula (d s t : ℚ) :
    calculate_scaled_values d s t = PLANETS.map (scaledResult d s t) ∧
    ∀ p ∈ PLANETS, (scaledResult d s t p).radius_uu =
      p.diameter_km / 2 * 100000.0 * s :=
  ⟨calculate_scaled_values_eq_map d s t,
   fun p _ => by norm_num [scaledResult, CM_PER_KM]⟩

/-- C4 witness: the formula instantiated at Mercury with
`size_scale = 1`. -/
theorem engine_radius_formula_witness :
    (scaledResult 1 1 1 (PLANETS.get ⟨0, by simp [PLANETS]⟩)).radius_uu =
      (PLANETS.get ⟨0, by simp [PLANETS]⟩).diameter_km / 2 * 100000.0 * 1 :=
  (engine_radius_formula 1 1 1).2 _ (List.get_mem _ _ _)

/-- C5: for a nonzero time multiplier (division by zero raises in the
source), the compressed orbital period of every record follows
`seconds = days * 86400 / time_multiplier`, `minutes = seconds / 60`,
`hours = minutes / 60`. -/
theorem orbital_compression_formula (d s t : ℚ) (ht : t ≠ 0) :
    calculate_scaled_values d s t = PLANETS.map (scaledResult d s t) ∧
    ∀ p ∈ PLANETS,
      (scaledResult d s t p).orbit_scaled_seconds =
        p.orbital_period_days * 86400 / t ∧
      (scaledResult d s t p).orbit_scaled_minutes =
        (scaledResult d s t p).orbit_scaled_seconds / 60 ∧
      (scaledResult d s t p).orbit_scaled_hours =
        (scaledResult d s t p).orbit_scaled_minutes / 60 :=
  ⟨calculate_scaled_values_eq_map d s t,
   fun p _ => by refine ⟨?_, ?_, ?_⟩ <;> norm_num [scaledResult]⟩

/-- C5 witness: the compression formula instantiated at Earth with the
default time multiplier 10000. -/
theorem orbital_compression_formula_witness :
    (scaledResult 1 1 10000
        (PLANETS.get ⟨2, by simp [PLANETS]⟩)).orbit_scaled_seconds =
      (PLANETS.get ⟨2, by simp [PLANETS]⟩).orbital_period_days * 86400 / 10000 :=
  ((orbital_compression_formula 1 1 10000 (by norm_num)).2 _
      (List.get_mem _ _ _)).1

/-- C6: the CSV output is exactly the 12-column header line followed by
one row per catalog planet (8 rows). -/
theorem csv_header_and_row_count (d s : ℚ) :
    generate_blueprint_csv d s =
      "PlanetName,SemiMajorAxisUU,Eccentricity,OrbitalPeriodDays,InclinationDeg,LongAscNodeDeg,ArgPeriapsisDeg,MeanAnomalyDeg,DiameterKm,MassEarthMasses,RotationPeriodDays,HasMoons"
        :: PLANETS.map (csvRow d) ∧
    (PLANETS.map (csvRow d)).length = 8 ∧
    PLANETS.length = 8 :=
  ⟨rfl, by simp [PLANETS], by simp [PLANETS]⟩

/-- C7: every CSV data row formats its numeric fields with the fixed
per-field decimal precisions (distance 2, eccentricity 8, orbital period
3, angles 5, diameter 1, mass 3, rotation 3) and serializes `has_moons`
as the literal token `TRUE` or `FALSE`. -/
theorem csv_row_field_formats (d : ℚ) (p : Planet) (hp : p ∈ PLANETS) :
    csvRowFields d p =
      [ p.name,
        ratToFixed (p.semi_major_axis_au * AU_TO_KM * CM_PER_KM * d) 2,
        ratToFixed p.eccentricity 8,
        ratToFixed p.orbital_period_days 3,
        ratToFixed p.inclination_deg 5,
        ratToFixed p.longitude_ascending_node_deg 5,
        ratToFixed p.argument_periapsis_deg 5,
        ratToFixed p.mean_anomaly_epoch_deg 5,
        ratToFixed p.diameter_km 1,
        ratToFixed p.mass_earth_masses 3,
        ratToFixed p.rotation_period_days 3,
        if p.has_moons then "TRUE" else "FALSE" ] ∧
    hasFixedDecimals
      (ratToFixed (p.semi_major_axis_au * AU_TO_KM * CM_PER_KM * d) 2) 2 ∧
    hasFixedDecimals (ratToFixed p.eccentricity 8) 8 ∧
    hasFixedDecimals (ratToFixed p.orbital_period_days 3) 3 ∧
    hasFixedDecimals (ratToFixed p.inclination_deg 5) 5 ∧
    hasFixedDecimals (ratToFixed p.longitude_ascending_node_deg 5) 5 ∧
    hasFixedDecimals (ratToFixed p.argument_periapsis_deg 5) 5 ∧
    hasFixedDecimals (ratToFixed p.mean_anomaly_epoch_deg 5) 5 ∧
    hasFixedDecimals (ratToFixed p.diameter_km 1) 1 ∧
    hasFixedDecimals (ratToFixed p.mass_earth_masses 3) 3 ∧
    hasFixedDecimals (ratToFixed p.rotation_period_days 3) 3 ∧
    ((if p.has_moons then "TRUE" else "FALSE") = "TRUE" ∨
      (if p.has_moons then "TRUE" else "FALSE") = "FALSE") := by
  refine ⟨rfl, ?_, ?_, ?_, ?_, ?_, ?_, ?_, ?_, ?_, ?_, ?_⟩
  all_goals first
    | exact ratToFixed_hasFixedDecimals _ _ (by norm_num)
    | (cases p.has_moons <;> simp)

/-- C7 witness: the eccentricity field of Mercury's row has eight decimal
places. -/
theorem csv_row_field_formats_witness :
    hasFixedDecimals
      (ratToFixed (PLANETS.get ⟨0, by simp [PLANETS]⟩).eccentricity 8) 8 :=
  (csv_row_field_formats 1 _ (List.get_mem _ _ _)).2.2.1

/-- C8: every camera record has min distance 3x and max distance 5x the
engine radius, hence `max_distance = (5/3) * min_distance` exactly. -/
theorem camera_distance_multipliers (c : CameraRec)
    (hc : c ∈ calculate_camera_distances) :
    c.min_distance = 3 * c.radius_uu ∧
    c.max_distance = 5 * c.radius_uu ∧
    c.max_distance = 5 / 3 * c.min_distance := by
  simp only [calculate_camera_distances, List.mem_map] at hc
  obtain ⟨p, -, rfl⟩ := hc
  refine ⟨?_, ?_, ?_⟩ <;> simp [cameraRec] <;> ring

/-- C8 witness: the 5/3 ratio instantiated at Mercury's record. -/
theorem camera_distance_multipliers_witness :
    (cameraRec 50.0 (PLANETS.get ⟨0, by simp [PLANETS]⟩)).max_distance =
      5 / 3 * (cameraRec 50.0 (PLANETS.get ⟨0, by simp [PLANETS]⟩)).min_distance := by
  have hmem : cameraRec 50.0 (PLANETS.get ⟨0, by simp [PLANETS]⟩)
      ∈ calculate_camera_distances :=
    List.mem_map_of_mem _ (List.get_mem _ _ _)
  exact (camera_distance_multipliers _ hmem).2.2

/-- C9: re-parsing the exported JSON document yields the `planets` array
field-for-field equal to the catalog, and the scale factors and constants
(including `sun_diameter_km = 1392700.0`) written at export time. -/
theorem json_export_roundtrip :
    parsePlanets export_json_config = some PLANETS ∧
    parseScaleFactors export_json_config = some (0.00001, 50.0, 10000.0) ∧
    parseConstants export_json_config = some (149597870.7, 100000.0, 1392700.0) :=
  ⟨rfl, rfl, rfl⟩

/-- C10: the catalog is fixed input data.  In this embedding every
operation is a pure function that only reads `PLANETS` (mutation is
impossible by construction); the theorem records that each operation's
output is the map of a pure per-entry function of the planet and the
scale factors over the same fixed 8-entry catalog, and that the exported
document still parses back to that catalog unchanged. -/
theorem catalog_immutable_and_derived_pure (d s t : ℚ) :
    calculate_scaled_values d s t = PLANETS.map (scaledResult d s t) ∧
    generate_blueprint_csv d s = csvHeader :: PLANETS.map (csvRow d) ∧
    calculate_camera_distances = PLANETS.map (cameraRec 50.0) ∧
    parsePlanets export_json_config = some PLANETS ∧
    PLANETS.length = 8 :=
  ⟨calculate_scaled_values_eq_map d s t, rfl, rfl, rfl, by simp [PLANETS]⟩

end SolarConfig
